import Mathlib

/-!
# Verification of `StereoCameraModel` (rtabmap corelib)

A shallow embedding of `src/corelib/src/StereoCameraModel.cpp`.
Real-valued quantities (camera intrinsics, matrix entries, depth,
disparity) are embedded as rationals; the persisted pose file and the
results of the external monocular-model collaborator's `load`/`save`
calls are passed explicitly.  Matrices that `cv::Mat` represents as
possibly-empty are embedded as `Option`.
-/

namespace Rtabmap

/-- Modelled from the spec: the external monocular camera model
collaborator.  Only the public contract used by this core is embedded:
name, focal lengths and principal point accessors, a rescale operation
and a validity predicate. -/
structure CameraModel where
  name : String
  fx : ℚ
  fy : ℚ
  cx : ℚ
  cy : ℚ
deriving DecidableEq, Repr

/-- Modelled from the spec: monocular validity — "non-zero focal length
and principal point defined". -/
def CameraModel.isValidForProjection (c : CameraModel) : Bool :=
  c.fx != 0 && c.fy != 0

/-- Modelled from the spec: the collaborator's rescale operation —
"a rescale transforms intrinsic focal length/principal point by
`factor`". -/
def CameraModel.scaled (c : CameraModel) (factor : ℚ) : CameraModel :=
  { c with fx := c.fx * factor, fy := c.fy * factor,
           cx := c.cx * factor, cy := c.cy * factor }

/-- Modelled from the spec: the monocular collaborator's `setName`. -/
def CameraModel.setName (c : CameraModel) (n : String) : CameraModel :=
  { c with name := n }

/-- One block of the persisted pose file: `{rows, cols, data}` with a
flat row-major numeric list (`rotation_matrix` etc. in
`{dir}/{name}_pose.yaml`). -/
structure MatBlock where
  rows : ℕ
  cols : ℕ
  data : List ℚ
deriving DecidableEq, Repr

/-- The contents of a `{directory}/{cameraName}_pose.yaml` file.
`cameraNameStr` is the string stored under the `camera_name` key (as
written by `save`); `cameraNameNumeric` is the value the generic numeric
accessor `(int)fs["camera_name"]` yields when the load path reads that
node — the relation between the two is owned by the external file
library, so both are carried explicitly. -/
structure PoseFile where
  cameraNameStr : String
  cameraNameNumeric : ℤ
  rotation : MatBlock
  translation : MatBlock
  essential : MatBlock
  fundamental : MatBlock
deriving DecidableEq, Repr

/-- C++ semantics of `name_ = (int)v;` for `std::string name_`: the
assignment resolves to `std::string::operator=(char)`, so the result is
the one-character string whose character is the int narrowed to an
unsigned byte. -/
def intToStdString (v : ℤ) : String :=
  String.singleton (Char.ofNat (v % 256).toNat)

/-- Modelled from the spec: the external `RigidTransform` primitive —
"constructed from 9 rotation + 3 translation scalars"; its default
construction yields the identity/empty transform. -/
inductive Transform where
  | defaultTransform : Transform
  | ofElems (r00 r01 r02 t0 r10 r11 r12 t1 r20 r21 r22 t2 : ℚ) : Transform
deriving DecidableEq, Repr

/-- The stereo model state: `rtabmap::StereoCameraModel`'s fields.
`R`/`T`/`E`/`F` are `cv::Mat` members that may be empty, embedded as
`Option`.  `baselineVal` backs the `baseline()` accessor, which the
spec leaves as "derived from T, not modeled further here". -/
structure StereoCameraModel where
  name : String
  left : CameraModel
  right : CameraModel
  R : Option (Fin 3 → Fin 3 → ℚ)
  T : Option (Fin 3 → ℚ)
  E : Option (Fin 3 → Fin 3 → ℚ)
  F : Option (Fin 3 → Fin 3 → ℚ)
  baselineVal : ℚ

/-- `baseline()` accessor. Modelled from the spec: derived from T, kept
abstract as a state component. -/
def StereoCameraModel.baseline (m : StereoCameraModel) : ℚ :=
  m.baselineVal

/-- Modelled from the spec: stereo validity — "both left and right
monocular models are individually valid". -/
def StereoCameraModel.isValid (m : StereoCameraModel) : Bool :=
  m.left.isValidForProjection && m.right.isValidForProjection

/-- `StereoCameraModel::setName` (StereoCameraModel.cpp lines 37-42). -/
def StereoCameraModel.setName (m : StereoCameraModel) (n : String) :
    StereoCameraModel :=
  { m with name := n,
           left := m.left.setName (n ++ "_left"),
           right := m.right.setName (n ++ "_right") }

/-- `StereoCameraModel::computeDepth` (lines 169-178).  The
`UASSERT(isValid())` precondition is carried as a hypothesis of the
theorems about this function. -/
def StereoCameraModel.computeDepth (m : StereoCameraModel)
    (disparity : ℚ) : ℚ :=
  if disparity = 0 then 0
  else m.baseline * m.left.fx / (disparity + m.right.cx - m.left.cx)

/-- `StereoCameraModel::computeDisparity(float)` (lines 180-189). -/
def StereoCameraModel.computeDisparity (m : StereoCameraModel)
    (depth : ℚ) : ℚ :=
  if depth = 0 then 0
  else m.baseline * m.left.fx / depth - m.right.cx + m.left.cx

/-- `StereoCameraModel::computeDisparity(unsigned short)`
(lines 191-200): depth quantized in millimeters. -/
def StereoCameraModel.computeDisparityMM (m : StereoCameraModel)
    (depth : ℕ) : ℚ :=
  if depth = 0 then 0
  else m.baseline * m.left.fx / ((depth : ℚ) / 1000) - m.right.cx + m.left.cx

/-- `StereoCameraModel::stereoTransform` (lines 202-212). -/
def StereoCameraModel.stereoTransform (m : StereoCameraModel) : Transform :=
  match m.R, m.T with
  | some r, some t =>
      .ofElems (r 0 0) (r 0 1) (r 0 2) (t 0)
               (r 1 0) (r 1 1) (r 1 2) (t 1)
               (r 2 0) (r 2 1) (r 2 2) (t 2)
  | _, _ => .defaultTransform

/-- `StereoCameraModel::scale` (lines 163-167). -/
def StereoCameraModel.scale (m : StereoCameraModel) (k : ℚ) :
    StereoCameraModel :=
  { m with left := m.left.scaled k, right := m.right.scaled k }

/-- `StereoCameraModel::save` (lines 113-161).  The external monocular
`save` results are passed as `leftOk`/`rightOk`.  Returns the boolean
result together with whether the pose file was written. -/
def StereoCameraModel.save (m : StereoCameraModel) (directory : String)
    (leftOk rightOk ignoreStereoTransform : Bool) : Bool × Bool :=
  if leftOk && rightOk then
    if ignoreStereoTransform then (true, false)
    else
      let filePath := directory ++ "/" ++ m.name ++ "_pose.yaml"
      if filePath != "" && m.name != "" && m.R.isSome && m.T.isSome then
        (true, true)
      else
        (false, false)
  else (false, false)

/-- The `UASSERT` shape checks on one pose-file block (lines 71-72 and
analogous): `rows*cols == data.size()` and the expected shape. -/
def checkBlock (b : MatBlock) (r c : ℕ) : Bool :=
  b.rows * b.cols == b.data.length && b.rows == r && b.cols == c

/-- Reconstruction of a 3×3 matrix from a flat row-major list
(`cv::Mat(rows, cols, CV_64FC1, data.data()).clone()`). -/
def parseMat3x3 (b : MatBlock) : Fin 3 → Fin 3 → ℚ :=
  fun i j => b.data.getD (i.val * 3 + j.val) 0

/-- Reconstruction of a 3×1 matrix from a flat list. -/
def parseMat3x1 (b : MatBlock) : Fin 3 → ℚ :=
  fun i => b.data.getD i.val 0

/-- `StereoCameraModel::load` (lines 44-112).  The external monocular
`load` results are `leftOk`/`rightOk`; `poseFile` is `some` the parsed
contents of `{directory}/{cameraName}_pose.yaml` when the file exists
and `none` when it does not.  `none` in the result marks a fatal
`UASSERT` shape failure; otherwise the pair is the boolean result and
the post-call state. -/
def StereoCameraModel.load (m : StereoCameraModel) (cameraName : String)
    (leftOk rightOk : Bool) (poseFile : Option PoseFile)
    (ignoreStereoTransform : Bool) :
    Option (Bool × StereoCameraModel) :=
  let m1 := { m with name := cameraName }
  if leftOk && rightOk then
    if ignoreStereoTransform then some (true, m1)
    else
      let m2 := { m1 with R := none, T := (none : Option (Fin 3 → ℚ)) }
      match poseFile with
      | some pf =>
          if checkBlock pf.rotation 3 3 && checkBlock pf.translation 3 1 &&
             checkBlock pf.essential 3 3 && checkBlock pf.fundamental 3 3 then
            some (true,
              { m2 with
                name := intToStdString pf.cameraNameNumeric,
                R := some (parseMat3x3 pf.rotation),
                T := some (parseMat3x1 pf.translation),
                E := some (parseMat3x3 pf.essential),
                F := some (parseMat3x3 pf.fundamental) })
          else none
      | none => some (false, m2)
  else some (false, m1)

/-! ## Concrete instances used by witnesses and counterexamples -/

/-- A valid example model with no extrinsics loaded:
baseline 0.1 m, fx = 500, cx = 320 on both eyes (the spec's §8 example). -/
def exModel : StereoCameraModel :=
  { name := "stereo"
    left := { name := "stereo_left", fx := 500, fy := 500, cx := 320, cy := 240 }
    right := { name := "stereo_right", fx := 500, fy := 500, cx := 320, cy := 240 }
    R := none, T := none, E := none, F := none
    baselineVal := 1/10 }

/-- A valid example model whose extrinsic matrices are all present. -/
def exPre : StereoCameraModel :=
  { name := "stereo"
    left := { name := "stereo_left", fx := 500, fy := 500, cx := 320, cy := 240 }
    right := { name := "stereo_right", fx := 500, fy := 500, cx := 300, cy := 240 }
    R := some (fun _ _ => 1), T := some (fun _ => 2)
    E := some (fun _ _ => 3), F := some (fun _ _ => 4)
    baselineVal := 1/10 }

/-- An example model with an empty name but extrinsics present. -/
def exNoName : StereoCameraModel :=
  { name := ""
    left := { name := "_left", fx := 500, fy := 500, cx := 320, cy := 240 }
    right := { name := "_right", fx := 500, fy := 500, cx := 320, cy := 240 }
    R := some (fun _ _ => 1), T := some (fun _ => 2)
    E := some (fun _ _ => 3), F := some (fun _ _ => 4)
    baselineVal := 1/10 }

/-- A well-shaped example pose file whose `camera_name` entry stores the
string "stereo"; the generic numeric accessor on that node yields some
integer (here 0 — the result does not depend on it). -/
def pfEx : PoseFile :=
  { cameraNameStr := "stereo"
    cameraNameNumeric := 0
    rotation := { rows := 3, cols := 3, data := [1,0,0,0,1,0,0,0,1] }
    translation := { rows := 3, cols := 1, data := [2,0,0] }
    essential := { rows := 3, cols := 3, data := [3,3,3,3,3,3,3,3,3] }
    fundamental := { rows := 3, cols := 3, data := [4,4,4,4,4,4,4,4,4] } }

/-! ## Claims -/

/-- C1: for every valid stereo model, `computeDepth(0) = 0` and for
nonzero disparity `computeDepth(d) = baseline * fx_left /
(d + cx_right - cx_left)`. -/
theorem computeDepth_spec (m : StereoCameraModel) (h : m.isValid = true) :
    m.computeDepth 0 = 0 ∧
    ∀ d : ℚ, d ≠ 0 →
      m.computeDepth d = m.baseline * m.left.fx / (d + m.right.cx - m.left.cx) := by
  constructor
  · simp [StereoCameraModel.computeDepth]
  · intro d hd
    simp [StereoCameraModel.computeDepth, hd]

/-- Witness for C1 at the spec's §8 example model: depth 5 at disparity 10. -/
theorem computeDepth_spec_witness :
    exModel.computeDepth 0 = 0 ∧
    exModel.computeDepth 10
      = exModel.baseline * exModel.left.fx / (10 + exModel.right.cx - exModel.left.cx) :=
  ⟨(computeDepth_spec exModel (by decide)).1,
   (computeDepth_spec exModel (by decide)).2 10 (by norm_num)⟩

/-- C2: for every valid stereo model, the real-valued
`computeDisparity(0) = 0` and for nonzero depth
`computeDisparity(z) = baseline * fx_left / z - cx_right + cx_left`. -/
theorem computeDisparity_spec (m : StereoCameraModel) (h : m.isValid = true) :
    m.computeDisparity 0 = 0 ∧
    ∀ z : ℚ, z ≠ 0 →
      m.computeDisparity z = m.baseline * m.left.fx / z - m.right.cx + m.left.cx := by
  constructor
  · simp [StereoCameraModel.computeDisparity]
  · intro z hz
    simp [StereoCameraModel.computeDisparity, hz]

/-- Witness for C2 at the example model. -/
theorem computeDisparity_spec_witness :
    exModel.computeDisparity 0 = 0 ∧
    exModel.computeDisparity 5
      = exModel.baseline * exModel.left.fx / 5 - exModel.right.cx + exModel.left.cx :=
  ⟨(computeDisparity_spec exModel (by decide)).1,
   (computeDisparity_spec exModel (by decide)).2 5 (by norm_num)⟩

/-- C3: for every valid stereo model and every unsigned 16-bit
millimeter depth, the quantized overload agrees with the real-valued
overload at `z / 1000`, and returns 0 at 0. -/
theorem computeDisparityMM_spec (m : StereoCameraModel) (h : m.isValid = true) :
    m.computeDisparityMM 0 = 0 ∧
    ∀ z : ℕ, z < 65536 → z ≠ 0 →
      m.computeDisparityMM z = m.computeDisparity ((z : ℚ) / 1000) := by
  constructor
  · simp [StereoCameraModel.computeDisparityMM]
  · intro z _ hz
    have hq : ((z : ℚ) / 1000) ≠ 0 := by
      have : (z : ℚ) ≠ 0 := Nat.cast_ne_zero.mpr hz
      positivity
    simp [StereoCameraModel.computeDisparityMM, StereoCameraModel.computeDisparity,
          hz, hq]

/-- Witness for C3 at the example model with depth 2000 mm. -/
theorem computeDisparityMM_spec_witness :
    exModel.computeDisparityMM 0 = 0 ∧
    exModel.computeDisparityMM 2000 = exModel.computeDisparity ((2000 : ℚ) / 1000) :=
  ⟨(computeDisparityMM_spec exModel (by decide)).1,
   (computeDisparityMM_spec exModel (by decide)).2 2000 (by norm_num) (by norm_num)⟩

/-- C10: `computeDepth`'s zero-guard tests only the disparity, not the
full divisor; for a valid model with `cx_right ≠ cx_left`, the nonzero
disparity `cx_left - cx_right` passes the guard and the division is
performed with an exactly-zero divisor. -/
theorem computeDepth_zero_divisor (m : StereoCameraModel) (h : m.isValid = true)
    (hcx : m.right.cx ≠ m.left.cx) :
    (m.left.cx - m.right.cx) ≠ 0 ∧
    ((m.left.cx - m.right.cx) + m.right.cx - m.left.cx) = 0 ∧
    m.computeDepth (m.left.cx - m.right.cx) = m.baseline * m.left.fx / 0 := by
  have hd : (m.left.cx - m.right.cx) ≠ 0 := sub_ne_zero.mpr (Ne.symm hcx)
  refine ⟨hd, by ring, ?_⟩
  have hz : (m.left.cx - m.right.cx) + m.right.cx - m.left.cx = 0 := by ring
  simp only [StereoCameraModel.computeDepth, if_neg hd, hz]

/-- Witness for C10 at a valid model with `cx_left = 320`,
`cx_right = 300`: disparity 20 passes the guard with zero divisor. -/
theorem computeDepth_zero_divisor_witness :
    (exPre.left.cx - exPre.right.cx) ≠ 0 ∧
    ((exPre.left.cx - exPre.right.cx) + exPre.right.cx - exPre.left.cx) = 0 ∧
    exPre.computeDepth (exPre.left.cx - exPre.right.cx)
      = exPre.baseline * exPre.left.fx / 0 :=
  computeDepth_zero_divisor exPre (by decide) (by norm_num [exPre])

/-- C4 counterexample: with both monocular saves succeeding,
`ignoreStereoTransform = false` and an empty name, `save` returns
`false` (and writes no pose file) — the claim says it returns `true`. -/
theorem save_empty_name_cex :
    exNoName.save "calib" true true false = (false, false) := by decide

/-- C4 amended: when both monocular saves succeed and
`ignoreStereoTransform` is false, if any of name, R, T is empty then
`save` returns `false` and the pose file is not written. -/
theorem save_empty_extrinsics (m : StereoCameraModel) (directory : String)
    (h : m.name = "" ∨ m.R = none ∨ m.T = none) :
    m.save directory true true false = (false, false) := by
  rcases h with h | h | h <;>
    simp [StereoCameraModel.save, h]

/-- Witness for the amended C4 at a concrete model with empty name. -/
theorem save_empty_extrinsics_witness :
    exNoName.save "calibration" true true false = (false, false) :=
  save_empty_extrinsics exNoName "calibration" (Or.inl rfl)

/-- C5: when both monocular loads succeed, `ignoreStereoTransform` is
false and the pose file does not exist, `load` returns `false`. -/
theorem load_missing_pose_fails (m : StereoCameraModel) (cameraName : String) :
    (m.load cameraName true true none false).map Prod.fst = some false := by
  simp [StereoCameraModel.load]

/-- C6 counterexample: with extrinsics present in the pre-state, both
monocular loads succeeding and `ignoreStereoTransform = true`, `load`
returns `true` but R, T, E, F are all still non-empty afterwards — the
claim says they are empty. -/
theorem load_ignore_cex :
    ((exPre.load "cam" true true none true).map
        (fun p => (p.1, p.2.R.isSome, p.2.T.isSome, p.2.E.isSome, p.2.F.isSome)))
      = some (true, true, true, true, true) := rfl

/-- C6 amended: when both monocular loads succeed,
`load(directory, cameraName, true)` returns `true` regardless of
pose-file presence; afterwards the name is `cameraName` and R, T, E, F
are unchanged from the pre-call state (hence empty only if they already
were). -/
theorem load_ignore_spec (m : StereoCameraModel) (cameraName : String)
    (poseFile : Option PoseFile) :
    m.load cameraName true true poseFile true
      = some (true, { m with name := cameraName }) := by
  simp [StereoCameraModel.load]

/-- C7: the load path assigns `(int)fs["camera_name"]` into the string
name field; the result is a one-character string produced by the
int-to-char narrowing, not the string stored under `camera_name`.  At a
pose file storing "stereo", the successful load ends with a name that
differs from the stored string. -/
theorem load_camera_name_bug :
    ((exModel.load "stereo" true true (some pfEx) false).map
        (fun p => (p.1, p.2.name)))
      = some (true, intToStdString pfEx.cameraNameNumeric) ∧
    intToStdString pfEx.cameraNameNumeric ≠ pfEx.cameraNameStr := by
  exact ⟨rfl, by decide⟩

/-- C8: `stereoTransform` is total; when R and T are both present it
returns the transform whose row `i` is R's row `i` followed by T's
entry `i`, and when either is absent it returns the default
(identity/empty) transform. -/
theorem stereoTransform_spec (m : StereoCameraModel) :
    (∀ r t, m.R = some r → m.T = some t →
      m.stereoTransform
        = Transform.ofElems (r 0 0) (r 0 1) (r 0 2) (t 0)
            (r 1 0) (r 1 1) (r 1 2) (t 1)
            (r 2 0) (r 2 1) (r 2 2) (t 2)) ∧
    ((m.R = none ∨ m.T = none) → m.stereoTransform = Transform.defaultTransform) := by
  constructor
  · intro r t hr ht
    simp [StereoCameraModel.stereoTransform, hr, ht]
  · intro h
    rcases hR : m.R with _ | r <;> rcases hT : m.T with _ | t <;>
      simp_all [StereoCameraModel.stereoTransform]

/-- Witness for C8: the full-extrinsics model maps to its element
transform; the extrinsic-free model maps to the default transform. -/
theorem stereoTransform_spec_witness :
    exPre.stereoTransform = Transform.ofElems 1 1 1 2 1 1 1 2 1 1 1 2 ∧
    exModel.stereoTransform = Transform.defaultTransform :=
  ⟨(stereoTransform_spec exPre).1 _ _ rfl rfl,
   (stereoTransform_spec exModel).2 (Or.inl rfl)⟩

/-- C9: `scale(k)` replaces left and right by their rescaled copies
(intrinsics multiplied by `k`) and leaves name, R, T, E, F unchanged. -/
theorem scale_spec (m : StereoCameraModel) (k : ℚ) :
    (m.scale k).left = m.left.scaled k ∧
    (m.scale k).right = m.right.scaled k ∧
    (m.scale k).left.fx = m.left.fx * k ∧
    (m.scale k).left.cx = m.left.cx * k ∧
    (m.scale k).right.fx = m.right.fx * k ∧
    (m.scale k).right.cx = m.right.cx * k ∧
    (m.scale k).name = m.name ∧
    (m.scale k).R = m.R ∧
    (m.scale k).T = m.T ∧
    (m.scale k).E = m.E ∧
    (m.scale k).F = m.F :=
  ⟨rfl, rfl, rfl, rfl, rfl, rfl, rfl, rfl, rfl, rfl, rfl⟩

end Rtabmap
